import Mathlib

/-!
Verification of the Autogen Obsidian plugin core pipeline.

The development shallowly embeds the pipeline of `src/main.ts` and
`src/utils/openai.ts`: trigger detection (`pattern.exec`), context-window
extraction (`Math.max`/`Math.min`/`String.substring`), the OpenAI response
handling (`getReplacement`, `generateReplacementText`), the substitution
applier (`replaceText` with JS `String.replace` semantics, including the
`$`-escape expansion of `GetSubstitution`), and the trailing-edge debounce of
`handleEditorChange`.

Documents are modelled as `List Char` (JS string = sequence of UTF-16 units);
numeric index arithmetic that JS performs on floating-point values is modelled
exactly over `ℚ`, with the truncation performed by `String.substring`
made explicit via `Int.floor`/`Int.toNat` (all quantities involved are
nonnegative, so truncation toward zero agrees with `floor`).
-/

/-! ### Context Windower (src/main.ts lines 76-82 and 436-442)

`const start = Math.max(match.index - windowSize / 2, 0);`
`const end = Math.min(match.index + match[0].length + windowSize / 2, content.length);`
`const textWindow = content.substring(start, end);`

`windowSize / 2` is computed in JS number arithmetic (exact halving, possibly
fractional), and `String.substring` converts its fractional arguments with
truncation toward zero.  Both bounds are nonnegative, so the conversion is
`Int.floor` followed by `Int.toNat`. -/

/-- Rational value of `Math.max(match.index - windowSize / 2, 0)`. -/
def windowStartQ (i W : ℕ) : ℚ := max ((i : ℚ) - (W : ℚ) / 2) 0

/-- Rational value of
`Math.min(match.index + match[0].length + windowSize / 2, content.length)`. -/
def windowEndQ (i L W dlen : ℕ) : ℚ := min ((i : ℚ) + (L : ℚ) + (W : ℚ) / 2) (dlen : ℚ)

/-- Integer index actually used by `content.substring` for the window start. -/
def windowStart (i W : ℕ) : ℕ := (Int.floor (windowStartQ i W)).toNat

/-- Integer index actually used by `content.substring` for the window end. -/
def windowEnd (i L W dlen : ℕ) : ℕ := (Int.floor (windowEndQ i L W dlen)).toNat

/-- `content.substring(start, end)` for `start ≤ end`, both within bounds:
the characters of `content` with indices in `[start, end)`. -/
def buildWindow (content : List Char) (i L W : ℕ) : List Char :=
  (content.take (windowEnd i L W content.length)).drop (windowStart i W)

/-- Floor of a half-integer rational, reduced to integer (Euclidean) division. -/
lemma floor_cast_div_two (z : ℤ) : Int.floor ((z : ℚ) / 2) = z / 2 := by
  have h := Rat.floor_intCast_div_natCast z 2
  norm_num at h
  exact h

/-- The window start index in integer arithmetic: `i - ⌈W/2⌉`, clamped at `0`
(`(W + 1) / 2` is natural-number division, i.e. `⌈W/2⌉`). -/
lemma windowStart_eq (i W : ℕ) : windowStart i W = i - (W + 1) / 2 := by
  unfold windowStart windowStartQ
  have h2 : ((i : ℚ) - (W : ℚ) / 2) = ((2 * (i : ℤ) - (W : ℤ) : ℤ) : ℚ) / 2 := by
    push_cast
    ring
  rw [h2]
  rcases le_total (((2 * (i : ℤ) - (W : ℤ) : ℤ) : ℚ) / 2) 0 with h | h
  · rw [max_eq_right h, Int.floor_zero, Int.toNat_zero]
    have h3 : ((2 * (i : ℤ) - (W : ℤ) : ℤ) : ℚ) ≤ 0 := by linarith
    have h4 : (2 * (i : ℤ) - (W : ℤ) : ℤ) ≤ 0 := by exact_mod_cast h3
    omega
  · rw [max_eq_left h, floor_cast_div_two]
    have h3 : (0 : ℚ) ≤ ((2 * (i : ℤ) - (W : ℤ) : ℤ) : ℚ) := by linarith
    have h4 : (0 : ℤ) ≤ 2 * (i : ℤ) - (W : ℤ) := by exact_mod_cast h3
    omega

/-- The window end index in integer arithmetic: `min (i + L + W / 2) dlen`
(`W / 2` is natural-number division, i.e. `⌊W/2⌋`). -/
lemma windowEnd_eq (i L W dlen : ℕ) : windowEnd i L W dlen = min (i + L + W / 2) dlen := by
  unfold windowEnd windowEndQ
  have h2 : ((i : ℚ) + (L : ℚ) + (W : ℚ) / 2)
      = ((2 * (i : ℤ) + 2 * (L : ℤ) + (W : ℤ) : ℤ) : ℚ) / 2 := by
    push_cast
    ring
  rw [h2]
  rcases le_total (((2 * (i : ℤ) + 2 * (L : ℤ) + (W : ℤ) : ℤ) : ℚ) / 2) ((dlen : ℕ) : ℚ)
    with h | h
  · rw [min_eq_left h, floor_cast_div_two]
    have h3 : ((2 * (i : ℤ) + 2 * (L : ℤ) + (W : ℤ) : ℤ) : ℚ) ≤ 2 * (dlen : ℚ) := by
      linarith
    have h4 : (2 * (i : ℤ) + 2 * (L : ℤ) + (W : ℤ) : ℤ) ≤ 2 * (dlen : ℤ) := by
      exact_mod_cast h3
    omega
  · rw [min_eq_right h, Int.floor_natCast, Int.toNat_natCast]
    have h3 : 2 * ((dlen : ℕ) : ℚ) ≤ ((2 * (i : ℤ) + 2 * (L : ℤ) + (W : ℤ) : ℤ) : ℚ) := by
      linarith
    have h4 : 2 * (dlen : ℤ) ≤ (2 * (i : ℤ) + 2 * (L : ℤ) + (W : ℤ) : ℤ) := by
      exact_mod_cast h3
    omega

/-- Length of the extracted window. -/
lemma buildWindow_length (content : List Char) (i L W : ℕ) :
    (buildWindow content i L W).length
      = windowEnd i L W content.length - windowStart i W := by
  unfold buildWindow
  rw [List.length_drop, List.length_take]
  rw [windowEnd_eq]
  omega

/-! ### Trigger Matcher (src/main.ts lines 69-75 and 429-435)

`const pattern = new RegExp(this.settings.triggerRegex, "g");`
`const match = pattern.exec(content);`

A freshly constructed `g`-flagged regex has `lastIndex = 0`, so `exec` tries
candidate start positions `0, 1, ..., content.length` in order and returns the
first position at which the pattern matches.  A compiled pattern is modelled by
its match-at-position function `matchAt : ℕ → Option ℕ`, giving the length of
the match the pattern produces when anchored at that position (if any). -/

/-- Leftmost-match scan: try `g` at positions `p, p+1, ...` (`fuel` many). -/
def scanFirst (g : ℕ → Option α) : ℕ → ℕ → Option (ℕ × α)
  | 0, _ => none
  | fuel + 1, p =>
    match g p with
    | some a => some (p, a)
    | none => scanFirst g fuel (p + 1)

lemma scanFirst_eq_some {g : ℕ → Option α} {fuel start p : ℕ} {a : α}
    (h : scanFirst g fuel start = some (p, a)) :
    g p = some a ∧ start ≤ p ∧ ∀ q, start ≤ q → q < p → g q = none := by
  induction fuel generalizing start with
  | zero => simp [scanFirst] at h
  | succ n ih =>
    rw [scanFirst] at h
    rcases hg : g start with _ | b
    · rw [hg] at h
      obtain ⟨h1, h2, h3⟩ := ih h
      refine ⟨h1, by omega, fun q hq1 hq2 => ?_⟩
      rcases Nat.eq_or_lt_of_le hq1 with rfl | hq1'
      · exact hg
      · exact h3 q hq1' hq2
    · rw [hg] at h
      obtain ⟨rfl, rfl⟩ : start = p ∧ b = a := by
        have h' := Option.some.inj h
        exact ⟨congrArg Prod.fst h', congrArg Prod.snd h'⟩
      exact ⟨hg, le_refl _, fun q hq1 hq2 => absurd hq1 (by omega)⟩

lemma scanFirst_eq_none {g : ℕ → Option α} {fuel start : ℕ}
    (h : ∀ q, start ≤ q → q < start + fuel → g q = none) :
    scanFirst g fuel start = none := by
  induction fuel generalizing start with
  | zero => rfl
  | succ n ih =>
    rw [scanFirst]
    rw [h start (le_refl _) (by omega)]
    exact ih fun q hq1 hq2 => h q (by omega) (by omega)

/-- `pattern.exec(content)` for a compiled pattern `matchAt` on a document of
length `len`: the first position (searching left to right, including the empty
position at the end of the document) at which the pattern matches, together
with the length of the matched text.  `none` when the pattern matches
nowhere. -/
def findTrigger (matchAt : ℕ → Option ℕ) (len : ℕ) : Option (ℕ × ℕ) :=
  scanFirst matchAt (len + 1) 0

lemma findTrigger_eq_none {matchAt : ℕ → Option ℕ} {len : ℕ}
    (h : ∀ p, p ≤ len → matchAt p = none) : findTrigger matchAt len = none :=
  scanFirst_eq_none fun q _ hq2 => h q (by omega)

/-- The default trigger pattern `@\[(.*?)\]`, anchored at one position:
the next two characters must be `@` and `[`, and the lazy group `(.*?)`
(in which `.` matches anything except a line terminator) extends to the
closest `]`.  `findClose cs` is the distance to the first `]` in `cs`,
provided no newline occurs before it. -/
def findClose : List Char → Option ℕ
  | [] => none
  | c :: rest =>
    if c = ']' then some 0
    else if c = '\n' then none
    else (findClose rest).map (· + 1)

/-- Match-at-position function of the compiled default pattern `@\[(.*?)\]`
on a fixed document. -/
def defaultMatchAt (content : List Char) (p : ℕ) : Option ℕ :=
  match content.drop p with
  | '@' :: '[' :: rest => (findClose rest).map (· + 3)
  | _ => none

/-! ### Detection pass (src/main.ts `showConfirmationModal`, lines 68-138, and
`triggerGeneration`, lines 428-447)

`new RegExp(this.settings.triggerRegex, "g")` either yields a compiled pattern
or throws a `SyntaxError`; the surrounding function has no `try`/`catch`, so a
throw escapes the function (`Except.error`).  On a successful compile the pass
runs `exec`; with no match it does nothing at all, and with a match it opens
the confirmation modal for the matched text and its context window.  The
user-visible effects of one pass are recorded as a list of `Action`s: editor
mutation (`editor.setValue`) and the backend request only ever happen later,
inside the modal's confirm flow, so a detection pass can emit at most an
`openModal` action. -/

inductive JsException where
  | invalidRegex
deriving DecidableEq

inductive EditorAction where
  | openModal (matchedText : List Char) (textWindow : List Char)
  | requestGeneration (textWindow : List Char) (matchedText : List Char)
  | setDocument (newContent : List Char)
deriving DecidableEq

/-- One detection pass.  `compiled` is the outcome of
`new RegExp(this.settings.triggerRegex, "g")`: a match-at-position function
for a well-formed pattern source, or the thrown `SyntaxError` for a malformed
one. -/
def showConfirmationModalActions (compiled : Except JsException (ℕ → Option ℕ))
    (content : List Char) (windowSize : ℕ) : Except JsException (List EditorAction) :=
  match compiled with
  | .error e => .error e
  | .ok matchAt =>
    match findTrigger matchAt content.length with
    | none => .ok []
    | some (i, l) =>
        .ok [EditorAction.openModal ((content.drop i).take l) (buildWindow content i l windowSize)]

/-! ### Substitution Applier (src/main.ts `replaceText`, lines 164-168 and
474-491)

`const newContent = content.replace(match, replacement);` — `String.replace`
with a *string* search value replaces the first literal occurrence, but first
expands `$`-escapes in the replacement string (ECMA-262 `GetSubstitution`):
`$$` → `$`, `$&` → the matched text, `$` followed by a backquote → the text
before the match, `$` followed by a straight quote → the text after the match;
with a string search value there are no capture groups, so `$n` stays
literal. -/

/-- The backquote character. -/
def backquoteChar : Char := Char.ofNat 96

/-- The straight single-quote character. -/
def quoteChar : Char := Char.ofNat 39

/-- ECMA-262 `GetSubstitution` for a string search value (no captures):
expand `$`-escapes in the replacement template. -/
def getSubstitution (matched pre post : List Char) : List Char → List Char
  | [] => []
  | [c] => [c]
  | c :: c2 :: rest2 =>
    if c = '$' then
      if c2 = '$' then '$' :: getSubstitution matched pre post rest2
      else if c2 = '&' then matched ++ getSubstitution matched pre post rest2
      else if c2 = backquoteChar then pre ++ getSubstitution matched pre post rest2
      else if c2 = quoteChar then post ++ getSubstitution matched pre post rest2
      else c :: c2 :: getSubstitution matched pre post rest2
    else c :: getSubstitution matched pre post (c2 :: rest2)

lemma getSubstitution_no_dollar (matched pre post : List Char) (repl : List Char)
    (h : '$' ∉ repl) : getSubstitution matched pre post repl = repl := by
  induction repl with
  | nil => rfl
  | cons c rest ih =>
    simp only [List.mem_cons, not_or] at h
    have hc : ¬ (c = '$') := fun hcc => h.1 hcc.symm
    cases rest with
    | nil => rfl
    | cons c2 rest2 => rw [getSubstitution, if_neg hc, ih h.2]

/-- `content.indexOf(pat)` as an optional index: the first position at which
`pat` occurs as a contiguous sublist of `content`. -/
def findSubstring (content pat : List Char) : Option ℕ :=
  (scanFirst (fun p => if (content.drop p).take pat.length = pat then some () else none)
    (content.length + 1) 0).map (fun pr => pr.1)

/-- `content.indexOf(pat)`: the first occurrence's index, or `-1`. -/
def jsIndexOf (content pat : List Char) : ℤ :=
  match findSubstring content pat with
  | some p => (p : ℤ)
  | none => -1

/-- `content.replace(pat, repl)` with string arguments: replace the first
literal occurrence of `pat` (if any) by the `GetSubstitution`-expanded
replacement. -/
def jsStringReplace (content pat repl : List Char) : List Char :=
  match findSubstring content pat with
  | none => content
  | some p =>
      content.take p
        ++ getSubstitution pat (content.take p) (content.drop (p + pat.length)) repl
        ++ content.drop (p + pat.length)

/-- `s.split("\n")` of JS: the (always nonempty) list of newline-separated
segments. -/
def splitNl : List Char → List (List Char)
  | [] => [[]]
  | c :: rest =>
    if c = '\n' then [] :: splitNl rest
    else
      match splitNl rest with
      | [] => [[c]]
      | l :: ls => (c :: l) :: ls

lemma splitNl_ne_nil (s : List Char) : splitNl s ≠ [] := by
  cases s with
  | nil => simp [splitNl]
  | cons c rest =>
    rw [splitNl]
    split
    · simp
    · split <;> simp

lemma splitNl_length (s : List Char) : (splitNl s).length = s.count '\n' + 1 := by
  induction s with
  | nil => rfl
  | cons c rest ih =>
    rw [splitNl]
    by_cases hc : c = '\n'
    · rw [if_pos hc, List.length_cons, ih, hc]
      simp [List.count_cons]
    · rw [if_neg hc]
      rcases hsp : splitNl rest with _ | ⟨l, ls⟩
      · exact absurd hsp (splitNl_ne_nil rest)
      · rw [hsp] at ih
        simp only [List.length_cons] at ih ⊢
        rw [ih]
        simp [List.count_cons, hc]

/-- `replaceText(editor, match, replacement)` of the explicit-trigger variant
(src/main.ts lines 474-491): replace, then compute the cursor position.

```
const matchIndex = newContent.indexOf(replacement);
const lineNumber = newContent.substr(0, matchIndex).split("\n").length;
const line = editor.getLine(lineNumber);
const charPosition = line.indexOf(replacement);
editor.setCursor({ line: lineNumber, ch: charPosition });
```

`substr(0, -1)` (when `indexOf` misses) is the empty string, which
`Int.toNat` reproduces.  The host editor's `getLine` is modelled as indexing
the newline-split of the document, with an empty line for an out-of-range
index.  Result: (new document text, cursor line, cursor column). -/
def replaceText (content pat repl : List Char) : List Char × ℕ × ℤ :=
  let newContent := jsStringReplace content pat repl
  let matchIndex : ℤ := jsIndexOf newContent repl
  let lineNumber := (splitNl (newContent.take matchIndex.toNat)).length
  let line := (splitNl newContent).getD lineNumber []
  let charPosition : ℤ := jsIndexOf line repl
  (newContent, lineNumber, charPosition)

/-- Zero-based (line, column) position of character index `n` in document
`s`: the number of newlines before `n`, and the distance from the last
newline before `n`. -/
def posOfIndex (s : List Char) (n : ℕ) : ℕ × ℕ :=
  ((s.take n).count '\n', ((splitNl (s.take n)).getLastD []).length)

/-! ### Generation Client (src/utils/openai.ts `getReplacement`, lines 12-96,
and src/main.ts `generateReplacementText`, lines 140-162)

```
if (response.choices.length === 0) { return "Error: No response from OpenAI"; }
const call = response.choices[0].message.tool_calls?.[0].function;
if (call === undefined) { return "Error: Invalid response from OpenAI"; }
const replacement = JSON.parse(call.arguments).selectionReplacement;
if (replacement === undefined) { return "Error: Invalid response from OpenAI"; }
return replacement;
} catch (e) { console.error(e); return undefined; }
```

The backend response shape is modelled structurally.  `arguments` is a JSON
string; only the outcome of `JSON.parse(...).selectionReplacement` matters, so
it is modelled as either a parse failure (`JSON.parse` throws) or the parsed
optional field.  Note the optional chaining `tool_calls?.[0].function`:
it short-circuits to `undefined` only when `tool_calls` itself is
`undefined`/`null`; when `tool_calls` is a present but *empty* array,
`tool_calls[0]` is `undefined` and accessing `.function` on it throws a
`TypeError`, which the surrounding `try`/`catch` converts into the function
returning `undefined` (modelled as `none`). -/

inductive ArgsOutcome where
  | malformed
  | parsed (selectionReplacement : Option String)
deriving DecidableEq

structure FnCall where
  arguments : ArgsOutcome
deriving DecidableEq

structure ToolCall where
  function : FnCall
deriving DecidableEq

structure RespMessage where
  tool_calls : Option (List ToolCall)
deriving DecidableEq

structure RespChoice where
  message : RespMessage
deriving DecidableEq

structure ChatResponse where
  choices : List RespChoice
deriving DecidableEq

/-- Outcome of `await client.chat.completions.create(...)`: either the call
threw (network/auth/rate-limit/...) or it produced a response value. -/
inductive BackendOutcome where
  | thrown
  | response (r : ChatResponse)
deriving DecidableEq

/-- `getReplacement` of src/utils/openai.ts: `none` models the function
returning `undefined` (every internal throw is caught and mapped to
`undefined`); `some s` models returning string `s`. -/
def getReplacement : BackendOutcome → Option String
  | .thrown => none
  | .response r =>
    match r.choices with
    | [] => some "Error: No response from OpenAI"
    | c :: _ =>
      match c.message.tool_calls with
      | none => some "Error: Invalid response from OpenAI"
      | some [] => none
      | some (tc :: _) =>
        match tc.function.arguments with
        | .malformed => none
        | .parsed none => some "Error: Invalid response from OpenAI"
        | .parsed (some s) => some s

/-- `generateReplacementText` of src/main.ts (lines 140-162): with no client
configured, the fixed no-client message; otherwise forward the client result
when it is truthy (defined and nonempty), else the fixed generation-error
message. -/
def generateReplacementText (clientAvailable : Bool) (outcome : BackendOutcome) : String :=
  if clientAvailable then
    match getReplacement outcome with
    | some r => if r = "" then "Error: Error generating replacement text" else r
    | none => "Error: Error generating replacement text"
  else
    "Error: OpenAI client not initialized. Please make sure there is an API key set in the settings."

/-! ### Debounce (src/main.ts `handleEditorChange`, lines 58-66)

```
if (this.typingTimeout !== null) { clearTimeout(this.typingTimeout); }
this.typingTimeout = setTimeout(() => this.showConfirmationModal(editor), this.typingDelay);
```

There is one timer slot (`typingTimeout : Timeout | null`).  The event-loop
behaviour is modelled by folding over the (increasing) arrival times of
document-change events: before an event at time `t` is handled, a pending
timer whose fire time is `≤ t` has already fired (one detection pass);
handling the event clears the slot (a no-op for an already-fired timer) and
schedules a new timer at `t + delay`.  After the last event, a still-pending
timer eventually fires.  `debounceRun` returns the times of all detection
passes. -/

/-- State: (pending fire time, fire times so far).  Process one change event
at time `t`. -/
def debounceStep (delay : ℕ) (st : Option ℕ × List ℕ) (t : ℕ) : Option ℕ × List ℕ :=
  let fired :=
    match st.1 with
    | some ft => if ft ≤ t then st.2 ++ [ft] else st.2
    | none => st.2
  (some (t + delay), fired)

/-- Times of all detection passes produced by a sequence of change events. -/
def debounceRun (delay : ℕ) (events : List ℕ) : List ℕ :=
  let st := events.foldl (debounceStep delay) (none, [])
  match st.1 with
  | some ft => st.2 ++ [ft]
  | none => st.2

lemma debounce_fold (delay : ℕ) (rest : List ℕ) :
    ∀ (prev : ℕ) (fires : List ℕ),
      List.Chain' (fun a b => a < b ∧ b < a + delay) (prev :: rest) →
      rest.foldl (debounceStep delay) (some (prev + delay), fires)
        = (some ((prev :: rest).getLastD 0 + delay), fires) := by
  induction rest with
  | nil => intro prev fires _; rfl
  | cons t rest' ih =>
    intro prev fires hch
    rw [List.chain'_cons] at hch
    rw [List.foldl_cons]
    have hstep : debounceStep delay (some (prev + delay), fires) t
        = (some (t + delay), fires) := by
      unfold debounceStep
      simp only
      rw [if_neg (by omega)]
    rw [hstep]
    have h2 := ih t fires hch.2
    rw [h2]
    simp [List.getLastD]

/-! ## Claims -/

/-- Claim C1, as stated, is false: the claimed window length
`min(i + L + W/2, len(D)) - max(i - W/2, 0)` is computed with exact halving of
`W`, but for odd `W` the bounds are fractional and `String.substring`
truncates them, so the actual window length can differ from the claimed
value.  Concretely, for document `"@[]ab"` the default pattern matches at
offset `0` with length `3`; with window size `W = 1` the claimed length is
`min(0 + 3 + 1/2, 5) - max(0 - 1/2, 0) = 7/2`, while the extracted window is
`"@[]"` of length `3`. -/
theorem buildWindow_length_claim_counterexample :
    findTrigger (defaultMatchAt (String.toList "@[]ab")) (String.toList "@[]ab").length
      = some (0, 3)
    ∧ ¬ (((buildWindow (String.toList "@[]ab") 0 3 1).length : ℚ)
        = windowEndQ 0 3 1 (String.toList "@[]ab").length - windowStartQ 0 1) := by
  constructor
  · decide
  · have hl : (String.toList "@[]ab").length = 5 := by decide
    have hlen : (buildWindow (String.toList "@[]ab") 0 3 1).length = 3 := by
      rw [buildWindow_length, windowEnd_eq, windowStart_eq, hl]
      decide
    intro h
    rw [hlen, hl] at h
    rw [show windowEndQ 0 3 1 5 = 7 / 2 by unfold windowEndQ; norm_num] at h
    rw [show windowStartQ 0 1 = 0 by unfold windowStartQ; norm_num] at h
    norm_num at h

/-- Claim C1 (amended): the window is the substring of the document over
`[⌊max(i - W/2, 0)⌋, ⌊min(i + L + W/2, len(D))⌋)` — `String.substring`
truncates the fractional bounds, so in integer arithmetic the start is
`i - ⌈W/2⌉` clamped at `0` and the end is `min(i + L + ⌊W/2⌋, len(D))` (for
even `W` these agree with the claimed formulas exactly); the window's length
equals end minus start and is always `≤ W + L`. -/
theorem buildWindow_start_end_length (content : List Char) (i L W : ℕ) :
    windowStart i W = i - (W + 1) / 2
    ∧ windowEnd i L W content.length = min (i + L + W / 2) content.length
    ∧ (buildWindow content i L W).length
        = windowEnd i L W content.length - windowStart i W
    ∧ windowEnd i L W content.length - windowStart i W ≤ W + L := by
  refine ⟨windowStart_eq i W, windowEnd_eq i L W content.length,
    buildWindow_length content i L W, ?_⟩
  have hs := windowStart_eq i W
  have he := windowEnd_eq i L W content.length
  omega

/-- Claim C2: for a match inside the document, the computed window bounds
satisfy `0 ≤ start ≤ end ≤ len(D)` (the start bound being a natural number),
and the window is exactly the characters of the document between those
bounds — the document decomposes as `take start ++ window ++ drop end`, so
the extraction stays in bounds and is clamped, never padded. -/
theorem buildWindow_within_bounds (content : List Char) (i L W : ℕ)
    (h : i + L ≤ content.length) :
    windowStart i W ≤ windowEnd i L W content.length
    ∧ windowEnd i L W content.length ≤ content.length
    ∧ content.take (windowStart i W) ++ buildWindow content i L W
        ++ content.drop (windowEnd i L W content.length) = content := by
  have hs := windowStart_eq i W
  have he := windowEnd_eq i L W content.length
  have h1 : windowStart i W ≤ windowEnd i L W content.length := by omega
  have h2 : windowEnd i L W content.length ≤ content.length := by omega
  refine ⟨h1, h2, ?_⟩
  unfold buildWindow
  have h3 : content.take (windowStart i W)
      = (content.take (windowEnd i L W content.length)).take (windowStart i W) := by
    rw [List.take_take, min_eq_left h1]
  rw [h3, List.take_append_drop]
  exact List.take_append_drop _ _

/-- Witness for C2 at a concrete boundary-adjacent input: document
`"a@[x]b"`, match at offset `1` of length `4`, window size `6`
(so `i < W/2` clamps the start at `0`). -/
theorem buildWindow_within_bounds_witness :
    1 + 4 ≤ (String.toList "a@[x]b").length
    ∧ (windowStart 1 6 ≤ windowEnd 1 4 6 (String.toList "a@[x]b").length
      ∧ windowEnd 1 4 6 (String.toList "a@[x]b").length ≤ (String.toList "a@[x]b").length
      ∧ (String.toList "a@[x]b").take (windowStart 1 6)
          ++ buildWindow (String.toList "a@[x]b") 1 4 6
          ++ (String.toList "a@[x]b").drop (windowEnd 1 4 6 (String.toList "a@[x]b").length)
          = String.toList "a@[x]b") :=
  ⟨by decide, buildWindow_within_bounds (String.toList "a@[x]b") 1 4 6 (by decide)⟩

/-- Claim C3: trigger detection returns the first match in document order —
if `exec` returns a match at offset `i` with length `l`, the pattern matches
there and at no earlier offset; and if the pattern has zero occurrences in
the document, detection returns no match. -/
theorem findTrigger_first_match (matchAt : ℕ → Option ℕ) (len : ℕ) :
    ((∀ p, p ≤ len → matchAt p = none) → findTrigger matchAt len = none)
    ∧ ∀ i l, findTrigger matchAt len = some (i, l) →
        matchAt i = some l ∧ ∀ j, j < i → matchAt j = none := by
  constructor
  · exact findTrigger_eq_none
  · intro i l h
    obtain ⟨h1, _, h3⟩ := scanFirst_eq_some h
    exact ⟨h1, fun j hj => h3 j (Nat.zero_le j) hj⟩

/-- Witness for C3 with the compiled default pattern `@\[(.*?)\]`: on
`"abc"` (zero occurrences) detection returns no match; on `"a@[x]b"` it
returns the match at offset `1` of length `4`, and no earlier offset
matches. -/
theorem findTrigger_first_match_witness :
    ((∀ p, p ≤ 3 → defaultMatchAt (String.toList "abc") p = none)
      ∧ findTrigger (defaultMatchAt (String.toList "abc")) 3 = none)
    ∧ (findTrigger (defaultMatchAt (String.toList "a@[x]b")) 6 = some (1, 4)
      ∧ defaultMatchAt (String.toList "a@[x]b") 1 = some 4
      ∧ ∀ j, j < 1 → defaultMatchAt (String.toList "a@[x]b") j = none) := by
  refine ⟨⟨by decide, (findTrigger_first_match (defaultMatchAt (String.toList "abc")) 3).1
    (by decide)⟩, by decide, ?_⟩
  exact (findTrigger_first_match (defaultMatchAt (String.toList "a@[x]b")) 6).2 1 4 (by decide)

/-- Claim C4, as stated, is false: when the configured trigger pattern is not
a syntactically valid regular expression, `new RegExp(triggerRegex, "g")`
throws a `SyntaxError`, and `showConfirmationModal` / `triggerGeneration`
contain no `try`/`catch`, so the detection pass does *not* behave as a
no-match pass — the exception escapes the Trigger Matcher boundary. -/
theorem malformed_pattern_claim_counterexample :
    ¬ (showConfirmationModalActions (Except.error JsException.invalidRegex)
        (String.toList "a@[x]b") 8000 = Except.ok []) := by
  intro h
  exact Except.noConfusion h

/-- Claim C4 (amended): for a configured trigger pattern that is not a
syntactically valid regular expression, the `SyntaxError` thrown by pattern
construction propagates out of the detection pass unhandled; the malformed
pattern is not treated as producing no match, and no configuration error is
surfaced in its place. -/
theorem malformed_pattern_propagates (content : List Char) (W : ℕ) :
    showConfirmationModalActions (Except.error JsException.invalidRegex) content W
      = Except.error JsException.invalidRegex
    ∧ ∀ acts, showConfirmationModalActions (Except.error JsException.invalidRegex) content W
        ≠ Except.ok acts :=
  ⟨rfl, fun _ h => Except.noConfusion h⟩

/-- Claim C5, as stated, is false: `content.replace(match, replacement)`
expands `$`-escape sequences in the replacement string, so the first
occurrence of the matched text is not always replaced by the replacement
string verbatim.  Concretely, replacing `"@[x]"` by `"$&"` in `"A @[x] B"`
yields `"A @[x] B"` (`$&` denotes the matched text), not `"A $& B"`. -/
theorem replace_literal_claim_counterexample :
    findSubstring (String.toList "A @[x] B") (String.toList "@[x]") = some 2
    ∧ (String.toList "A @[x] B").take 2 ++ String.toList "$&"
        ++ (String.toList "A @[x] B").drop (2 + (String.toList "@[x]").length)
        = String.toList "A $& B"
    ∧ jsStringReplace (String.toList "A @[x] B") (String.toList "@[x]") (String.toList "$&")
        ≠ String.toList "A $& B" := by
  refine ⟨by decide, by decide, by decide⟩

/-- Claim C5 (amended): for every replacement string containing no `$`
character (so that `GetSubstitution` leaves it unchanged), `applyReplacement`
replaces exactly the first literal occurrence of the matched full text by the
replacement string, leaving all other text unchanged; in particular, for
document `"A @[x] B"` with the default pattern's match `"@[x]"` and
generation result `"X"`, the result is `"A X B"`. -/
theorem replace_first_literal_occurrence (content pat repl : List Char) (p : ℕ)
    (hd : '$' ∉ repl)
    (hp : findSubstring content pat = some p) :
    (content.drop p).take pat.length = pat
    ∧ (∀ q, q < p → (content.drop q).take pat.length ≠ pat)
    ∧ jsStringReplace content pat repl
        = content.take p ++ repl ++ content.drop (p + pat.length) := by
  have hscan2 : scanFirst
      (fun q => if (content.drop q).take pat.length = pat then some () else none)
      (content.length + 1) 0 = some (p, ()) := by
    obtain ⟨pr, hscan, hp'⟩ := Option.map_eq_some'.mp hp
    obtain ⟨p', u⟩ := pr
    cases u
    simp only at hp'
    rw [hp'] at hscan
    exact hscan
  obtain ⟨h1, -, h3⟩ := scanFirst_eq_some hscan2
  have hocc : (content.drop p).take pat.length = pat := by
    by_contra hno
    rw [if_neg hno] at h1
    exact Option.noConfusion h1
  refine ⟨hocc, fun q hq hqeq => ?_, ?_⟩
  · have := h3 q (Nat.zero_le q) hq
    rw [if_pos hqeq] at this
    exact Option.noConfusion this
  · simp only [jsStringReplace, hp]
    rw [getSubstitution_no_dollar _ _ _ _ hd]

/-- Witness for C5 (the claim's round-trip): replacing `"@[x]"` by `"X"` in
`"A @[x] B"` yields `"A X B"`. -/
theorem replace_first_literal_occurrence_witness :
    ('$' ∉ String.toList "X")
    ∧ findSubstring (String.toList "A @[x] B") (String.toList "@[x]") = some 2
    ∧ jsStringReplace (String.toList "A @[x] B") (String.toList "@[x]") (String.toList "X")
        = String.toList "A X B" := by
  refine ⟨by decide, by decide, ?_⟩
  have h := replace_first_literal_occurrence (String.toList "A @[x] B")
    (String.toList "@[x]") (String.toList "X") 2 (by decide) (by decide)
  rw [h.2.2]
  decide

/-- Claim C6, as stated, is false: after the substitution, the cursor is not
positioned immediately after the end of the replacement text.  Concretely,
replacing `"@[x]"` by `"X"` in `"@[x]\nB"` yields `"X\nB"` with the
replacement at index `0`; "immediately after it" is line `0`, column `1`, but
the code computes `lineNumber = "".split("\n").length = 1` (a 1-based count
used against the 0-based line API) and then searches for `"X"` in line `1`
(`"B"`), so the cursor is set to line `1`, column `-1`. -/
theorem replaceText_cursor_claim_counterexample :
    replaceText (String.toList "@[x]\nB") (String.toList "@[x]") (String.toList "X")
      = (String.toList "X\nB", 1, -1)
    ∧ posOfIndex (String.toList "X\nB")
        ((jsIndexOf (String.toList "X\nB") (String.toList "X")).toNat
          + (String.toList "X").length) = (0, 1)
    ∧ ((1 : ℕ), (-1 : ℤ)) ≠ ((0 : ℕ), (1 : ℤ)) := by
  refine ⟨by decide, by decide, by decide⟩

/-- Claim C6 (amended): after the substitution, the cursor's line is set to
one *more* than the number of newlines preceding the replacement's first
index in the new document (the code uses the 1-based `split("\n").length`
count against the 0-based editor line API), and the cursor's column to the
first index of the replacement string within whatever line sits at that
shifted line number (`-1` when it does not occur there); the cursor is not in
general immediately after the replacement text. -/
theorem replaceText_cursor_characterization (content pat repl : List Char) :
    (replaceText content pat repl).2.1
      = ((jsStringReplace content pat repl).take
          (jsIndexOf (jsStringReplace content pat repl) repl).toNat).count '\n' + 1
    ∧ (replaceText content pat repl).2.2
      = jsIndexOf ((splitNl (jsStringReplace content pat repl)).getD
          ((replaceText content pat repl).2.1) []) repl := by
  constructor
  · exact splitNl_length _
  · rfl

/-- Claim C7, as stated, is false for one backend outcome: a response whose
structured call is missing in the form of a present but *empty* `tool_calls`
array does not yield the MalformedResponse failure
`"Error: Invalid response from OpenAI"` — evaluating
`tool_calls?.[0].function` throws a `TypeError` (optional chaining only
guards `tool_calls` itself), the `catch` swallows it, and `getReplacement`
returns `undefined`. -/
theorem getReplacement_empty_toolcalls_counterexample :
    getReplacement (BackendOutcome.response ⟨[⟨⟨some []⟩⟩]⟩) = none
    ∧ getReplacement (BackendOutcome.response ⟨[⟨⟨some []⟩⟩]⟩)
        ≠ some "Error: Invalid response from OpenAI" := by
  exact ⟨rfl, by decide⟩

/-- Claim C7 (amended): the Generation Client is total over backend outcomes
and never raises past its boundary.  Zero candidate completions yield
`"Error: No response from OpenAI"`; an *absent* `tool_calls` field, or
parsed arguments whose replacement field is absent, yield
`"Error: Invalid response from OpenAI"`; a present but empty `tool_calls`
array, unparsable arguments, and transport exceptions are all caught and
yield the absent value (`undefined`) instead of a message. -/
theorem getReplacement_total_outcomes :
    getReplacement BackendOutcome.thrown = none
    ∧ getReplacement (BackendOutcome.response ⟨[]⟩) = some "Error: No response from OpenAI"
    ∧ (∀ rest, getReplacement (BackendOutcome.response ⟨⟨⟨none⟩⟩ :: rest⟩)
        = some "Error: Invalid response from OpenAI")
    ∧ (∀ rest, getReplacement (BackendOutcome.response ⟨⟨⟨some []⟩⟩ :: rest⟩) = none)
    ∧ (∀ rest tcs, getReplacement
        (BackendOutcome.response ⟨⟨⟨some (⟨⟨ArgsOutcome.parsed none⟩⟩ :: tcs)⟩⟩ :: rest⟩)
        = some "Error: Invalid response from OpenAI")
    ∧ (∀ rest tcs, getReplacement
        (BackendOutcome.response ⟨⟨⟨some (⟨⟨ArgsOutcome.malformed⟩⟩ :: tcs)⟩⟩ :: rest⟩)
        = none)
    ∧ (∀ rest tcs s, getReplacement
        (BackendOutcome.response ⟨⟨⟨some (⟨⟨ArgsOutcome.parsed (some s)⟩⟩ :: tcs)⟩⟩ :: rest⟩)
        = some s) :=
  ⟨rfl, rfl, fun _ => rfl, fun _ => rfl, fun _ _ => rfl, fun _ _ => rfl, fun _ _ _ => rfl⟩

/-- Claim C8: the debounce is trailing-edge with a single timer slot.  For
every nonempty run of change events in which each event arrives strictly
before the pending timer would fire (gap `< delay`), exactly one detection
pass happens, scheduled `delay` after the last event. -/
theorem debounce_single_pass (delay : ℕ) (e : ℕ) (rest : List ℕ)
    (h : List.Chain' (fun a b => a < b ∧ b < a + delay) (e :: rest)) :
    debounceRun delay (e :: rest) = [(e :: rest).getLastD 0 + delay] := by
  unfold debounceRun
  rw [List.foldl_cons]
  have h0 : debounceStep delay (none, []) e = (some (e + delay), []) := rfl
  rw [h0, debounce_fold delay rest e [] h]
  rfl

/-- Witness for C8: two change events at times `0` and `100` (100 ms apart)
with a 2000 ms debounce produce exactly one detection pass, at time
`2100 = 100 + 2000`. -/
theorem debounce_single_pass_witness :
    List.Chain' (fun a b => a < b ∧ b < a + 2000) [0, 100]
    ∧ debounceRun 2000 [0, 100] = [2100] := by
  have hch : List.Chain' (fun a b => a < b ∧ b < a + 2000) [0, 100] := by
    norm_num [List.chain'_cons]
  refine ⟨hch, ?_⟩
  have h := debounce_single_pass 2000 0 [100] hch
  simpa using h

/-- Claim C9: when the trigger pattern has no occurrence in the document, the
detection pass is a no-op — it emits no user-visible effect at all (no modal,
no backend request, no document mutation). -/
theorem detection_no_match_noop (matchAt : ℕ → Option ℕ) (content : List Char) (W : ℕ)
    (h : ∀ p, p ≤ content.length → matchAt p = none) :
    showConfirmationModalActions (Except.ok matchAt) content W = Except.ok [] := by
  have hnone : findTrigger matchAt content.length = none := findTrigger_eq_none h
  simp [showConfirmationModalActions, hnone]

/-- Witness for C9: the default pattern has no occurrence in `"abc"`, and the
detection pass on `"abc"` emits no action. -/
theorem detection_no_match_noop_witness :
    (∀ p, p ≤ (String.toList "abc").length → defaultMatchAt (String.toList "abc") p = none)
    ∧ showConfirmationModalActions (Except.ok (defaultMatchAt (String.toList "abc")))
        (String.toList "abc") 8000 = Except.ok [] :=
  ⟨by decide, detection_no_match_noop (defaultMatchAt (String.toList "abc"))
    (String.toList "abc") 8000 (by decide)⟩

/-- Claim C10: whenever the client call yields the empty string or no value
at all, `generateReplacementText` returns the fixed failure message
`"Error: Error generating replacement text"`; and on every outcome (client
configured or not) the candidate text it returns is a non-empty string. -/
theorem generateReplacementText_nonempty :
    (∀ o, getReplacement o = some "" →
        generateReplacementText true o = "Error: Error generating replacement text")
    ∧ (∀ o, getReplacement o = none →
        generateReplacementText true o = "Error: Error generating replacement text")
    ∧ (∀ b o, generateReplacementText b o ≠ "") := by
  refine ⟨fun o ho => ?_, fun o ho => ?_, fun b o => ?_⟩
  · simp [generateReplacementText, ho]
  · simp [generateReplacementText, ho]
  · cases b with
    | false => simp [generateReplacementText]
    | true =>
      unfold generateReplacementText
      rcases hr : getReplacement o with _ | r
      · simp
      · simp only [if_true]
        by_cases h0 : r = ""
        · simp [h0]
        · simp [h0]

/-- Witness for C10: a backend response whose structured call carries the
empty string as replacement makes `generateReplacementText` return the fixed
failure message. -/
theorem generateReplacementText_nonempty_witness :
    getReplacement (BackendOutcome.response
        ⟨[⟨⟨some [⟨⟨ArgsOutcome.parsed (some "")⟩⟩]⟩⟩]⟩) = some ""
    ∧ generateReplacementText true (BackendOutcome.response
        ⟨[⟨⟨some [⟨⟨ArgsOutcome.parsed (some "")⟩⟩]⟩⟩]⟩)
        = "Error: Error generating replacement text" :=
  ⟨rfl, generateReplacementText_nonempty.1 _ rfl⟩
